import Mathlib

/-!
# receiverhelper: the receiver factory

A verification development for `receiver/receiverhelper/factory.go`.

The Go file builds a `factory` record out of a config type, a default-config
builder and a list of functional options, and exposes five methods on it.
The embedding follows the source declaration by declaration:

* a Go func value is nullable, so every func-typed slot is an `Option` of a
  Lean function (`none` is Go's `nil`);
* caller-supplied functions may have effects and may panic, so they are
  functions of an explicit world state returning an `Outcome` and the next
  world;
* the types and the sentinel error that `factory.go` imports from the packages
  `context`, `component`, `componenterror`, `config` and `consumer` are taken
  as parameters, gathered in `Env`.
-/

namespace receiverhelper

/-- How a Go call ends: it returns a value, or it panics. -/
inductive Outcome (α : Type) where
  | ret (v : α)
  | panicked
  deriving DecidableEq, Repr

/-- The declarations `factory.go` imports: the state of the world that
caller-supplied functions act on, the argument and result types of the
builders, the error type and the sentinel
`componenterror.ErrDataTypeIsNotSupported`.  Interface-typed results that the
source compares with or sets to `nil` (`error`, the three receiver interfaces)
are used below as `Option`s of these types. -/
structure Env where
  /-- State that caller-supplied functions can read and change. -/
  World : Type
  /-- Go `context.Context`. -/
  Context : Type
  /-- Go `component.ReceiverCreateParams`. -/
  ReceiverCreateParams : Type
  /-- Go `config.Receiver`. -/
  Receiver : Type
  /-- Go `consumer.Traces`. -/
  Traces : Type
  /-- Go `consumer.Metrics`. -/
  Metrics : Type
  /-- Go `consumer.Logs`. -/
  Logs : Type
  /-- Non-nil values of `component.TracesReceiver`. -/
  TracesReceiver : Type
  /-- Non-nil values of `component.MetricsReceiver`. -/
  MetricsReceiver : Type
  /-- Non-nil values of `component.LogsReceiver`. -/
  LogsReceiver : Type
  /-- Non-nil values of Go `error`. -/
  Error : Type
  /-- The sentinel `componenterror.ErrDataTypeIsNotSupported`. -/
  ErrDataTypeIsNotSupported : Error

/-- Go `config.Type`, a string type. -/
abbrev ConfigType : Type := String

/-- The body of an effectful Go call: from the world before the call to its
outcome and the world after it. -/
abbrev Effect (E : Env) (α : Type) : Type := E.World → Outcome α × E.World

/-- The function behind a non-nil `CreateDefaultConfig`. -/
abbrev DefaultConfigFn (E : Env) : Type := Effect E E.Receiver

/-- The function behind a non-nil `CreateTraceReceiver`. -/
abbrev TraceFn (E : Env) : Type :=
  E.Context → E.ReceiverCreateParams → E.Receiver → E.Traces →
    Effect E (Option E.TracesReceiver × Option E.Error)

/-- The function behind a non-nil `CreateMetricsReceiver`. -/
abbrev MetricsFn (E : Env) : Type :=
  E.Context → E.ReceiverCreateParams → E.Receiver → E.Metrics →
    Effect E (Option E.MetricsReceiver × Option E.Error)

/-- The function behind a non-nil `CreateLogsReceiver`. -/
abbrev LogsFn (E : Env) : Type :=
  E.Context → E.ReceiverCreateParams → E.Receiver → E.Logs →
    Effect E (Option E.LogsReceiver × Option E.Error)

/-- Go `type CreateDefaultConfig func() config.Receiver`. -/
abbrev CreateDefaultConfig (E : Env) : Type := Option (DefaultConfigFn E)

/-- Go `type CreateTraceReceiver func(ctx, params, cfg, consumer.Traces)
(component.TracesReceiver, error)`. -/
abbrev CreateTraceReceiver (E : Env) : Type := Option (TraceFn E)

/-- Go `type CreateMetricsReceiver func(ctx, params, cfg, consumer.Metrics)
(component.MetricsReceiver, error)`. -/
abbrev CreateMetricsReceiver (E : Env) : Type := Option (MetricsFn E)

/-- Go `type CreateLogsReceiver func(ctx, params, cfg, consumer.Logs)
(component.LogsReceiver, error)`. -/
abbrev CreateLogsReceiver (E : Env) : Type := Option (LogsFn E)

/-- Go `type factory struct`. -/
structure factory (E : Env) where
  cfgType : ConfigType
  createDefaultConfig : CreateDefaultConfig E
  createTraceReceiver : CreateTraceReceiver E
  createMetricsReceiver : CreateMetricsReceiver E
  createLogsReceiver : CreateLogsReceiver E

/-- Go `type FactoryOption func(o *factory)`: a nullable procedure that acts
on the factory under construction through the pointer it is handed.  The
non-nil option values that `factory.go` constructs are the closures returned
by `WithTraces`, `WithMetrics` and `WithLogs`, each of which assigns one field
and returns; an option is embedded accordingly as a nullable transformer of
the factory record.  This is exact for nil and for the `With*` closures; an
option whose body panics or has other effects is outside this embedding, and
statements about options are made on nil and on `With*` options. -/
abbrev FactoryOption (E : Env) : Type := Option (factory E → factory E)

/-- Go `WithTraces`: the returned closure stores its argument in
`o.createTraceReceiver`. -/
def WithTraces {E : Env} (createTraceReceiver : CreateTraceReceiver E) : FactoryOption E :=
  some (fun o => { o with createTraceReceiver := createTraceReceiver })

/-- Go `WithMetrics`: the returned closure stores its argument in
`o.createMetricsReceiver`. -/
def WithMetrics {E : Env} (createMetricsReceiver : CreateMetricsReceiver E) : FactoryOption E :=
  some (fun o => { o with createMetricsReceiver := createMetricsReceiver })

/-- Go `WithLogs`: the returned closure stores its argument in
`o.createLogsReceiver`. -/
def WithLogs {E : Env} (createLogsReceiver : CreateLogsReceiver E) : FactoryOption E :=
  some (fun o => { o with createLogsReceiver := createLogsReceiver })

/-- The loop `for _, opt := range options { opt(f) }` of `NewFactory`: the
options run in list order on the factory; calling a nil option panics, and an
option that is a transformer of the record returns. -/
def applyOptions {E : Env} : List (FactoryOption E) → factory E → Outcome (factory E)
  | [], f => Outcome.ret f
  | none :: _, _ => Outcome.panicked
  | some opt :: rest, f => applyOptions rest (opt f)

/-- Go `NewFactory`: the composite literal sets `cfgType` and
`createDefaultConfig` and leaves the three receiver builders at their zero
value `nil`; then the options are applied. -/
def NewFactory {E : Env} (cfgType : ConfigType) (createDefaultConfig : CreateDefaultConfig E)
    (options : List (FactoryOption E)) : Outcome (factory E) :=
  applyOptions options
    { cfgType := cfgType
      createDefaultConfig := createDefaultConfig
      createTraceReceiver := none
      createMetricsReceiver := none
      createLogsReceiver := none }

/-- Go `(*factory).Type`. -/
def factory.Type_ {E : Env} (f : factory E) : ConfigType :=
  f.cfgType

/-- The Go call expression `d()` on a func value `d` of type
`CreateDefaultConfig`: the function runs, and calling `nil` panics. -/
def invoke {E : Env} (d : CreateDefaultConfig E) : Effect E E.Receiver :=
  match d with
  | some g => g
  | none => fun w => (Outcome.panicked, w)

/-- Go `(*factory).CreateDefaultConfig`: `return f.createDefaultConfig()`, with
no nil check. -/
def factory.CreateDefaultConfig {E : Env} (f : factory E) : Effect E E.Receiver :=
  invoke f.createDefaultConfig

/-- Go `(*factory).CreateTracesReceiver`. -/
def factory.CreateTracesReceiver {E : Env} (f : factory E) (ctx : E.Context)
    (params : E.ReceiverCreateParams) (cfg : E.Receiver) (nextConsumer : E.Traces) :
    Effect E (Option E.TracesReceiver × Option E.Error) :=
  match f.createTraceReceiver with
  | some g => g ctx params cfg nextConsumer
  | none => fun w => (Outcome.ret (none, some E.ErrDataTypeIsNotSupported), w)

/-- Go `(*factory).CreateMetricsReceiver`. -/
def factory.CreateMetricsReceiver {E : Env} (f : factory E) (ctx : E.Context)
    (params : E.ReceiverCreateParams) (cfg : E.Receiver) (nextConsumer : E.Metrics) :
    Effect E (Option E.MetricsReceiver × Option E.Error) :=
  match f.createMetricsReceiver with
  | some g => g ctx params cfg nextConsumer
  | none => fun w => (Outcome.ret (none, some E.ErrDataTypeIsNotSupported), w)

/-- Go `(*factory).CreateLogsReceiver`. -/
def factory.CreateLogsReceiver {E : Env} (f : factory E) (ctx : E.Context)
    (params : E.ReceiverCreateParams) (cfg : E.Receiver) (nextConsumer : E.Logs) :
    Effect E (Option E.LogsReceiver × Option E.Error) :=
  match f.createLogsReceiver with
  | some g => g ctx params cfg nextConsumer
  | none => fun w => (Outcome.ret (none, some E.ErrDataTypeIsNotSupported), w)

/-! ## The methods as procedures on the record behind the receiver pointer

The five methods have the pointer receiver `f *factory`, so a method body can
assign to the fields of the record behind `f`, as the `With*` closures do
through `o`.  Below, each body is translated once more in state-passing form:
the record is an input, and the record as the body leaves it is an output next
to the returned value and the world.  The record is private to the package, so
a caller-supplied builder acts on the world only. -/

/-- What a method called through the receiver pointer hands back: the value
returned, the world after the call, and the record behind the pointer after
the call. -/
structure Returned (E : Env) (α : Type) where
  value : α
  world : E.World
  self : factory E

/-- Go `(*factory).Type` on the record behind `f`: `return f.cfgType`. -/
def Method.Type_ {E : Env} (f : factory E) (w : E.World) : Returned E ConfigType :=
  { value := f.cfgType, world := w, self := f }

/-- Go `(*factory).CreateDefaultConfig` on the record behind `f`:
`return f.createDefaultConfig()`. -/
def Method.CreateDefaultConfig {E : Env} (f : factory E) (w : E.World) :
    Returned E (Outcome E.Receiver) :=
  match f.createDefaultConfig with
  | some g => { value := (g w).1, world := (g w).2, self := f }
  | none => { value := Outcome.panicked, world := w, self := f }

/-- Go `(*factory).CreateTracesReceiver` on the record behind `f`. -/
def Method.CreateTracesReceiver {E : Env} (f : factory E) (ctx : E.Context)
    (params : E.ReceiverCreateParams) (cfg : E.Receiver) (nextConsumer : E.Traces)
    (w : E.World) : Returned E (Outcome (Option E.TracesReceiver × Option E.Error)) :=
  match f.createTraceReceiver with
  | some g =>
    { value := (g ctx params cfg nextConsumer w).1
      world := (g ctx params cfg nextConsumer w).2
      self := f }
  | none =>
    { value := Outcome.ret (none, some E.ErrDataTypeIsNotSupported), world := w, self := f }

/-- Go `(*factory).CreateMetricsReceiver` on the record behind `f`. -/
def Method.CreateMetricsReceiver {E : Env} (f : factory E) (ctx : E.Context)
    (params : E.ReceiverCreateParams) (cfg : E.Receiver) (nextConsumer : E.Metrics)
    (w : E.World) : Returned E (Outcome (Option E.MetricsReceiver × Option E.Error)) :=
  match f.createMetricsReceiver with
  | some g =>
    { value := (g ctx params cfg nextConsumer w).1
      world := (g ctx params cfg nextConsumer w).2
      self := f }
  | none =>
    { value := Outcome.ret (none, some E.ErrDataTypeIsNotSupported), world := w, self := f }

/-- Go `(*factory).CreateLogsReceiver` on the record behind `f`. -/
def Method.CreateLogsReceiver {E : Env} (f : factory E) (ctx : E.Context)
    (params : E.ReceiverCreateParams) (cfg : E.Receiver) (nextConsumer : E.Logs)
    (w : E.World) : Returned E (Outcome (Option E.LogsReceiver × Option E.Error)) :=
  match f.createLogsReceiver with
  | some g =>
    { value := (g ctx params cfg nextConsumer w).1
      world := (g ctx params cfg nextConsumer w).2
      self := f }
  | none =>
    { value := Outcome.ret (none, some E.ErrDataTypeIsNotSupported), world := w, self := f }

/-! ## Vocabulary of the specification -/

/-- One use of an option constructor of the source, with the builder handed
to it: `WithTraces(b)`, `WithMetrics(b)` or `WithLogs(b)`. -/
inductive WithCall (E : Env) where
  | traces (b : CreateTraceReceiver E)
  | metrics (b : CreateMetricsReceiver E)
  | logs (b : CreateLogsReceiver E)

/-- The `FactoryOption` value that the described constructor call returns. -/
def WithCall.option {E : Env} : WithCall E → FactoryOption E
  | WithCall.traces b => WithTraces b
  | WithCall.metrics b => WithMetrics b
  | WithCall.logs b => WithLogs b

/-- The builder carried by a `WithTraces` call, nothing for the other kinds. -/
def WithCall.traces? {E : Env} : WithCall E → Option (CreateTraceReceiver E)
  | WithCall.traces b => some b
  | _ => none

/-- The builder carried by a `WithMetrics` call, nothing for the other kinds. -/
def WithCall.metrics? {E : Env} : WithCall E → Option (CreateMetricsReceiver E)
  | WithCall.metrics b => some b
  | _ => none

/-- The builder carried by a `WithLogs` call, nothing for the other kinds. -/
def WithCall.logs? {E : Env} : WithCall E → Option (CreateLogsReceiver E)
  | WithCall.logs b => some b
  | _ => none

/-- The payload of the last element of a list that has one, scanning with
`pick`: the last one of the tail if the tail has one, else the head's. -/
def lastPick {α β : Type} (pick : α → Option β) : List α → Option β
  | [] => none
  | c :: rest =>
    match lastPick pick rest with
    | some b => some b
    | none => pick c

/-- The builder carried by the last `WithTraces` call of the list, if any. -/
def lastTraces {E : Env} (cs : List (WithCall E)) : Option (CreateTraceReceiver E) :=
  lastPick WithCall.traces? cs

/-- The builder carried by the last `WithMetrics` call of the list, if any. -/
def lastMetrics {E : Env} (cs : List (WithCall E)) : Option (CreateMetricsReceiver E) :=
  lastPick WithCall.metrics? cs

/-- The builder carried by the last `WithLogs` call of the list, if any. -/
def lastLogs {E : Env} (cs : List (WithCall E)) : Option (CreateLogsReceiver E) :=
  lastPick WithCall.logs? cs

/-- A caller making `n` calls of an operation one after the other, each on the
world the previous one left; the outcomes are collected in call order. -/
def callN {E : Env} {α : Type} (op : Effect E α) : Nat → E.World → List (Outcome α) × E.World
  | 0, w => ([], w)
  | n + 1, w =>
    let r := op w
    let rest := callN op n r.2
    (r.1 :: rest.1, rest.2)

/-- One call of a method of the factory, with its arguments. -/
inductive Call (E : Env) where
  | type
  | createDefaultConfig
  | createTracesReceiver (ctx : E.Context) (params : E.ReceiverCreateParams)
      (cfg : E.Receiver) (nextConsumer : E.Traces)
  | createMetricsReceiver (ctx : E.Context) (params : E.ReceiverCreateParams)
      (cfg : E.Receiver) (nextConsumer : E.Metrics)
  | createLogsReceiver (ctx : E.Context) (params : E.ReceiverCreateParams)
      (cfg : E.Receiver) (nextConsumer : E.Logs)

/-- What a method call gave back to its caller. -/
inductive Reply (E : Env) where
  | type (t : ConfigType)
  | config (r : Outcome E.Receiver)
  | traces (r : Outcome (Option E.TracesReceiver × Option E.Error))
  | metrics (r : Outcome (Option E.MetricsReceiver × Option E.Error))
  | logs (r : Outcome (Option E.LogsReceiver × Option E.Error))

/-- The state a sequence of method calls runs on: the factory record behind
the receiver pointer, and the world. -/
structure Session (E : Env) where
  self : factory E
  world : E.World

/-- One method call on the session: the method runs on the record and the
world of the session; the session continues with the record and the world
that the method hands back. -/
def step {E : Env} (s : Session E) : Call E → Reply E × Session E
  | Call.type =>
    let r := Method.Type_ s.self s.world
    (Reply.type r.value, { self := r.self, world := r.world })
  | Call.createDefaultConfig =>
    let r := Method.CreateDefaultConfig s.self s.world
    (Reply.config r.value, { self := r.self, world := r.world })
  | Call.createTracesReceiver ctx params cfg next =>
    let r := Method.CreateTracesReceiver s.self ctx params cfg next s.world
    (Reply.traces r.value, { self := r.self, world := r.world })
  | Call.createMetricsReceiver ctx params cfg next =>
    let r := Method.CreateMetricsReceiver s.self ctx params cfg next s.world
    (Reply.metrics r.value, { self := r.self, world := r.world })
  | Call.createLogsReceiver ctx params cfg next =>
    let r := Method.CreateLogsReceiver s.self ctx params cfg next s.world
    (Reply.logs r.value, { self := r.self, world := r.world })

/-- A finite sequence of method calls, in order. -/
def run {E : Env} (s : Session E) : List (Call E) → List (Reply E) × Session E
  | [] => ([], s)
  | c :: rest =>
    let r := step s c
    let tail := run r.2 rest
    (r.1 :: tail.1, tail.2)

/-- The builders held by the factory are functions of their arguments: what a
call of one of them returns does not depend on the world it is made in. -/
def factory.BuildersAreFunctions {E : Env} (f : factory E) : Prop :=
  (∀ g, f.createDefaultConfig = some g → ∀ w w1, (g w).1 = (g w1).1) ∧
  (∀ g, f.createTraceReceiver = some g →
    ∀ ctx params cfg next w w1, (g ctx params cfg next w).1 = (g ctx params cfg next w1).1) ∧
  (∀ g, f.createMetricsReceiver = some g →
    ∀ ctx params cfg next w w1, (g ctx params cfg next w).1 = (g ctx params cfg next w1).1) ∧
  (∀ g, f.createLogsReceiver = some g →
    ∀ ctx params cfg next w w1, (g ctx params cfg next w).1 = (g ctx params cfg next w1).1)

/-- The four caller-supplied functions a factory can hold. -/
inductive Builder where
  | defaultConfig
  | traces
  | metrics
  | logs
  deriving DecidableEq, Repr

/-- The environment with a journal of invocations added to the world: the
list of the caller-supplied functions invoked so far, oldest first. -/
@[reducible] def Env.traced (E : Env) : Env :=
  { World := E.World × List Builder
    Context := E.Context
    ReceiverCreateParams := E.ReceiverCreateParams
    Receiver := E.Receiver
    Traces := E.Traces
    Metrics := E.Metrics
    Logs := E.Logs
    TracesReceiver := E.TracesReceiver
    MetricsReceiver := E.MetricsReceiver
    LogsReceiver := E.LogsReceiver
    Error := E.Error
    ErrDataTypeIsNotSupported := E.ErrDataTypeIsNotSupported }

/-- The same factory with every function it holds instrumented: a function,
when invoked, does what it did on the world and enters itself in the journal.
Nil slots stay nil. -/
def factory.traced {E : Env} (f : factory E) : factory E.traced :=
  { cfgType := f.cfgType
    createDefaultConfig :=
      match f.createDefaultConfig with
      | some g => some (fun s => ((g s.1).1, ((g s.1).2, s.2 ++ [Builder.defaultConfig])))
      | none => none
    createTraceReceiver :=
      match f.createTraceReceiver with
      | some g => some (fun ctx params cfg next s =>
          ((g ctx params cfg next s.1).1,
            ((g ctx params cfg next s.1).2, s.2 ++ [Builder.traces])))
      | none => none
    createMetricsReceiver :=
      match f.createMetricsReceiver with
      | some g => some (fun ctx params cfg next s =>
          ((g ctx params cfg next s.1).1,
            ((g ctx params cfg next s.1).2, s.2 ++ [Builder.metrics])))
      | none => none
    createLogsReceiver :=
      match f.createLogsReceiver with
      | some g => some (fun ctx params cfg next s =>
          ((g ctx params cfg next s.1).1,
            ((g ctx params cfg next s.1).2, s.2 ++ [Builder.logs])))
      | none => none }

/-- Two lists of `With*` calls list the calls of each kind in the same order:
what a rearrangement of a list keeps when it does not change the relative
order of the options of a same kind. -/
def SameKindOrder {E : Env} (cs cs1 : List (WithCall E)) : Prop :=
  cs.filterMap WithCall.traces? = cs1.filterMap WithCall.traces? ∧
  cs.filterMap WithCall.metrics? = cs1.filterMap WithCall.metrics? ∧
  cs.filterMap WithCall.logs? = cs1.filterMap WithCall.logs?

/-! ## A concrete environment for evaluating the definitions -/

/-- An environment with natural numbers for every opaque type, strings for
errors, and a world that is a counter. -/
@[reducible] def natEnv : Env :=
  { World := Nat
    Context := Nat
    ReceiverCreateParams := Nat
    Receiver := Nat
    Traces := Nat
    Metrics := Nat
    Logs := Nat
    TracesReceiver := Nat
    MetricsReceiver := Nat
    LogsReceiver := Nat
    Error := String
    ErrDataTypeIsNotSupported := "telemetry type is not supported" }

/-- A default-config builder that bumps the counter and returns a value that
differs from call to call. -/
def freshConfig : DefaultConfigFn natEnv :=
  fun w => (Outcome.ret (100 + w), w + 1)

/-- A default-config builder that returns the same value at every call. -/
def fixedConfig : DefaultConfigFn natEnv :=
  fun w => (Outcome.ret 7, w + 1)

/-- A trace builder that succeeds and bumps the counter. -/
def buildTrace : TraceFn natEnv :=
  fun ctx params cfg next w => (Outcome.ret (some (ctx + params + cfg + next), none), w + 1)

/-- A trace builder that fails with an error of its own. -/
def failTrace : TraceFn natEnv :=
  fun _ _ _ _ w => (Outcome.ret (none, some "listen: address in use"), w + 1)

/-- A metrics builder that fails with an error of its own. -/
def failMetrics : MetricsFn natEnv :=
  fun _ _ _ _ w => (Outcome.ret (none, some "bad endpoint"), w + 1)

/-- A logs builder that succeeds. -/
def buildLogs : LogsFn natEnv :=
  fun _ _ cfg next w => (Outcome.ret (some (cfg * next), none), w + 1)

/-- A factory record with all three builders set. -/
def fullFactory : factory natEnv :=
  { cfgType := "otlp"
    createDefaultConfig := some fixedConfig
    createTraceReceiver := some failTrace
    createMetricsReceiver := some failMetrics
    createLogsReceiver := some buildLogs }

/-- A factory record with only the logs builder set among the three. -/
def logsOnlyFactory : factory natEnv :=
  { cfgType := "filelog"
    createDefaultConfig := some freshConfig
    createTraceReceiver := none
    createMetricsReceiver := none
    createLogsReceiver := some buildLogs }

/-- A factory record that shares its trace builder with `fullFactory` and
differs from it in every other field. -/
def tracesOnlyFactory : factory natEnv :=
  { cfgType := "jaeger"
    createDefaultConfig := none
    createTraceReceiver := some failTrace
    createMetricsReceiver := none
    createLogsReceiver := none }

/-! ## Theorems -/

/-- Scanning one more element in front: the last pick of the tail wins over
the head's. -/
theorem lastPick_cons_getD {α β : Type} (pick : α → Option β) (c : α) (rest : List α) (x : β) :
    (lastPick pick (c :: rest)).getD x = (lastPick pick rest).getD ((pick c).getD x) := by
  simp only [lastPick]
  cases lastPick pick rest <;> simp

/-- The option loop on a list of `With*` options never panics; it keeps the
config type and the default-config builder, and leaves in each builder slot
the builder of the last option of that kind, or what the slot held. -/
theorem applyOptions_withCalls {E : Env} (cs : List (WithCall E)) (f : factory E) :
    applyOptions (cs.map WithCall.option) f = Outcome.ret
      { cfgType := f.cfgType
        createDefaultConfig := f.createDefaultConfig
        createTraceReceiver := (lastTraces cs).getD f.createTraceReceiver
        createMetricsReceiver := (lastMetrics cs).getD f.createMetricsReceiver
        createLogsReceiver := (lastLogs cs).getD f.createLogsReceiver } := by
  induction cs generalizing f with
  | nil => rfl
  | cons c rest ih =>
    simp only [lastTraces, lastMetrics, lastLogs, lastPick_cons_getD] at ih ⊢
    cases c <;>
      simp [List.map, WithCall.option, WithTraces, WithMetrics, WithLogs, applyOptions, ih,
        WithCall.traces?, WithCall.metrics?, WithCall.logs?]

/-- The option loop applies a last non-nil option after all the others. -/
theorem applyOptions_append_one {E : Env} (options : List (FactoryOption E))
    (opt : factory E → factory E) (f : factory E) :
    applyOptions (options ++ [some opt]) f =
      match applyOptions options f with
      | Outcome.ret f1 => Outcome.ret (opt f1)
      | Outcome.panicked => Outcome.panicked := by
  induction options generalizing f with
  | nil => rfl
  | cons o rest ih =>
    cases o with
    | none => rfl
    | some h => simpa [applyOptions] using ih (h f)

/-- Claim C1. For every config type and default-config builder (nil included),
`NewFactory` with an empty option list returns a factory, and on that factory
each of `CreateTracesReceiver`, `CreateMetricsReceiver` and
`CreateLogsReceiver` returns, for every context, params, config, consumer and
world, a nil receiver together with `ErrDataTypeIsNotSupported`, leaving the
world as it was. -/
theorem newFactory_no_options_not_supported {E : Env} (cfgType : ConfigType)
    (createDefaultConfig : CreateDefaultConfig E) :
    ∃ f : factory E, NewFactory cfgType createDefaultConfig [] = Outcome.ret f ∧
      (∀ ctx params cfg next w, f.CreateTracesReceiver ctx params cfg next w
          = (Outcome.ret (none, some E.ErrDataTypeIsNotSupported), w)) ∧
      (∀ ctx params cfg next w, f.CreateMetricsReceiver ctx params cfg next w
          = (Outcome.ret (none, some E.ErrDataTypeIsNotSupported), w)) ∧
      (∀ ctx params cfg next w, f.CreateLogsReceiver ctx params cfg next w
          = (Outcome.ret (none, some E.ErrDataTypeIsNotSupported), w)) :=
  ⟨_, rfl, fun _ _ _ _ _ => rfl, fun _ _ _ _ _ => rfl, fun _ _ _ _ _ => rfl⟩

/-- Claim C2. For each signal kind: if the builder slot of that kind holds the
function `b`, then for every context, params, config, consumer and world the
corresponding `Create*Receiver` method returns exactly what
`b ctx params cfg consumer` returns in that world (receiver, error, panic and
resulting world alike), whether `b` succeeds or returns an error. -/
theorem create_receiver_returns_builder_result {E : Env} (f : factory E) :
    (∀ b : TraceFn E, f.createTraceReceiver = some b →
      ∀ ctx params cfg next w,
        f.CreateTracesReceiver ctx params cfg next w = b ctx params cfg next w) ∧
    (∀ b : MetricsFn E, f.createMetricsReceiver = some b →
      ∀ ctx params cfg next w,
        f.CreateMetricsReceiver ctx params cfg next w = b ctx params cfg next w) ∧
    (∀ b : LogsFn E, f.createLogsReceiver = some b →
      ∀ ctx params cfg next w,
        f.CreateLogsReceiver ctx params cfg next w = b ctx params cfg next w) := by
  refine ⟨?_, ?_, ?_⟩
  · intro b h ctx params cfg next w
    simp [factory.CreateTracesReceiver, h]
  · intro b h ctx params cfg next w
    simp [factory.CreateMetricsReceiver, h]
  · intro b h ctx params cfg next w
    simp [factory.CreateLogsReceiver, h]

/-- Witness of C2 on a factory whose trace and metrics builders fail and whose
logs builder succeeds. -/
theorem create_receiver_returns_builder_result_witness :
    (fullFactory.createTraceReceiver = some failTrace ∧
      fullFactory.CreateTracesReceiver 1 2 3 4 0
        = (Outcome.ret (none, some "listen: address in use"), 1)) ∧
    (fullFactory.createMetricsReceiver = some failMetrics ∧
      fullFactory.CreateMetricsReceiver 1 2 3 4 0 = (Outcome.ret (none, some "bad endpoint"), 1)) ∧
    (fullFactory.createLogsReceiver = some buildLogs ∧
      fullFactory.CreateLogsReceiver 1 2 3 4 0 = (Outcome.ret (some 12, none), 1)) :=
  ⟨⟨rfl, (create_receiver_returns_builder_result fullFactory).1 failTrace rfl 1 2 3 4 0⟩,
   ⟨rfl, (create_receiver_returns_builder_result fullFactory).2.1 failMetrics rfl 1 2 3 4 0⟩,
   ⟨rfl, (create_receiver_returns_builder_result fullFactory).2.2 buildLogs rfl 1 2 3 4 0⟩⟩

/-- Claim C3. `NewFactory` applies its options left to right: a last non-nil
option acts on the factory that the options before it produced.  For every
list of `With*` options, `NewFactory` returns a factory (no error arises from
repeated kinds) whose builder slot of each kind holds the builder carried by
the last option of that kind in the list, and nil if the list has no option
of that kind.  In particular on `NewFactory(t, d, WithTraces(b1),
WithTraces(b2))` with `b2` a function, `CreateTracesReceiver` is `b2` on every
argument and world, whatever `b1` is. -/
theorem newFactory_last_option_wins {E : Env} (cfgType : ConfigType)
    (createDefaultConfig : CreateDefaultConfig E) :
    (∀ (options : List (FactoryOption E)) (opt : factory E → factory E),
      NewFactory cfgType createDefaultConfig (options ++ [some opt]) =
        match NewFactory cfgType createDefaultConfig options with
        | Outcome.ret f => Outcome.ret (opt f)
        | Outcome.panicked => Outcome.panicked) ∧
    (∀ cs : List (WithCall E), ∃ f : factory E,
      NewFactory cfgType createDefaultConfig (cs.map WithCall.option) = Outcome.ret f ∧
      f.createTraceReceiver = (lastTraces cs).getD none ∧
      f.createMetricsReceiver = (lastMetrics cs).getD none ∧
      f.createLogsReceiver = (lastLogs cs).getD none) ∧
    (∀ (b1 : CreateTraceReceiver E) (b2 : TraceFn E), ∃ f : factory E,
      NewFactory cfgType createDefaultConfig [WithTraces b1, WithTraces (some b2)]
        = Outcome.ret f ∧
      ∀ ctx params cfg next w,
        f.CreateTracesReceiver ctx params cfg next w = b2 ctx params cfg next w) := by
  refine ⟨?_, ?_, ?_⟩
  · intro options opt
    exact applyOptions_append_one options opt _
  · intro cs
    exact ⟨_, applyOptions_withCalls cs _, rfl, rfl, rfl⟩
  · intro b1 b2
    exact ⟨_, rfl, fun _ _ _ _ _ => rfl⟩

/-- Claim C4. Each `With*` option writes its own builder slot and leaves the
other two builder slots, the config type and the default-config builder as
they were, on every factory state.  Consequently, on a factory constructed
with exactly one signal option carrying a builder function `b`, the creation
method of that kind returns exactly what `b` returns on the same arguments
and world, and the creation methods of the other two kinds return a nil
receiver and `ErrDataTypeIsNotSupported`. -/
theorem single_option_sets_only_its_kind {E : Env} (cfgType : ConfigType)
    (createDefaultConfig : CreateDefaultConfig E) :
    (∀ (b : CreateTraceReceiver E) (o : factory E), ∃ h, WithTraces b = some h ∧
      (h o).createTraceReceiver = b ∧
      (h o).createMetricsReceiver = o.createMetricsReceiver ∧
      (h o).createLogsReceiver = o.createLogsReceiver ∧
      (h o).cfgType = o.cfgType ∧ (h o).createDefaultConfig = o.createDefaultConfig) ∧
    (∀ (b : CreateMetricsReceiver E) (o : factory E), ∃ h, WithMetrics b = some h ∧
      (h o).createMetricsReceiver = b ∧
      (h o).createTraceReceiver = o.createTraceReceiver ∧
      (h o).createLogsReceiver = o.createLogsReceiver ∧
      (h o).cfgType = o.cfgType ∧ (h o).createDefaultConfig = o.createDefaultConfig) ∧
    (∀ (b : CreateLogsReceiver E) (o : factory E), ∃ h, WithLogs b = some h ∧
      (h o).createLogsReceiver = b ∧
      (h o).createTraceReceiver = o.createTraceReceiver ∧
      (h o).createMetricsReceiver = o.createMetricsReceiver ∧
      (h o).cfgType = o.cfgType ∧ (h o).createDefaultConfig = o.createDefaultConfig) ∧
    (∀ b : TraceFn E, ∃ f : factory E,
      NewFactory cfgType createDefaultConfig [WithTraces (some b)] = Outcome.ret f ∧
      (∀ ctx params cfg next w,
        f.CreateTracesReceiver ctx params cfg next w = b ctx params cfg next w) ∧
      (∀ ctx params cfg next w, f.CreateMetricsReceiver ctx params cfg next w
        = (Outcome.ret (none, some E.ErrDataTypeIsNotSupported), w)) ∧
      (∀ ctx params cfg next w, f.CreateLogsReceiver ctx params cfg next w
        = (Outcome.ret (none, some E.ErrDataTypeIsNotSupported), w))) ∧
    (∀ b : MetricsFn E, ∃ f : factory E,
      NewFactory cfgType createDefaultConfig [WithMetrics (some b)] = Outcome.ret f ∧
      (∀ ctx params cfg next w,
        f.CreateMetricsReceiver ctx params cfg next w = b ctx params cfg next w) ∧
      (∀ ctx params cfg next w, f.CreateTracesReceiver ctx params cfg next w
        = (Outcome.ret (none, some E.ErrDataTypeIsNotSupported), w)) ∧
      (∀ ctx params cfg next w, f.CreateLogsReceiver ctx params cfg next w
        = (Outcome.ret (none, some E.ErrDataTypeIsNotSupported), w))) ∧
    (∀ b : LogsFn E, ∃ f : factory E,
      NewFactory cfgType createDefaultConfig [WithLogs (some b)] = Outcome.ret f ∧
      (∀ ctx params cfg next w,
        f.CreateLogsReceiver ctx params cfg next w = b ctx params cfg next w) ∧
      (∀ ctx params cfg next w, f.CreateTracesReceiver ctx params cfg next w
        = (Outcome.ret (none, some E.ErrDataTypeIsNotSupported), w)) ∧
      (∀ ctx params cfg next w, f.CreateMetricsReceiver ctx params cfg next w
        = (Outcome.ret (none, some E.ErrDataTypeIsNotSupported), w))) := by
  refine ⟨?_, ?_, ?_, ?_, ?_, ?_⟩
  · intro b o
    exact ⟨_, rfl, rfl, rfl, rfl, rfl, rfl⟩
  · intro b o
    exact ⟨_, rfl, rfl, rfl, rfl, rfl, rfl⟩
  · intro b o
    exact ⟨_, rfl, rfl, rfl, rfl, rfl, rfl⟩
  · intro b
    exact ⟨_, rfl, fun _ _ _ _ _ => rfl, fun _ _ _ _ _ => rfl, fun _ _ _ _ _ => rfl⟩
  · intro b
    exact ⟨_, rfl, fun _ _ _ _ _ => rfl, fun _ _ _ _ _ => rfl, fun _ _ _ _ _ => rfl⟩
  · intro b
    exact ⟨_, rfl, fun _ _ _ _ _ => rfl, fun _ _ _ _ _ => rfl, fun _ _ _ _ _ => rfl⟩

/-- Claim C5. For every config-type identifier `t` (the non-empty ones in
particular), every default-config builder and every list of `With*` options,
`NewFactory` returns a factory on which `Type()` returns exactly `t`; no
`With*` option changes the stored identifier of the factory it is applied
to. -/
theorem type_returns_constructed_identifier {E : Env} (cfgType : ConfigType)
    (createDefaultConfig : CreateDefaultConfig E) (cs : List (WithCall E)) :
    (∃ f : factory E,
      NewFactory cfgType createDefaultConfig (cs.map WithCall.option) = Outcome.ret f ∧
      f.Type_ = cfgType) ∧
    (∀ (c : WithCall E) (o : factory E), ∃ h, c.option = some h ∧ (h o).cfgType = o.cfgType) := by
  refine ⟨⟨_, applyOptions_withCalls cs _, rfl⟩, ?_⟩
  intro c o
  cases c <;> exact ⟨_, rfl, rfl⟩

/-- If every invocation of an operation bumps a counter read off the world by
one, then `n` calls in a row bump it by `n`. -/
theorem callN_count {E : Env} {α : Type} (op : Effect E α) (count : E.World → Nat)
    (h : ∀ w, count (op w).2 = count w + 1) (n : Nat) (w : E.World) :
    count (callN op n w).2 = count w + n := by
  induction n generalizing w with
  | zero => rfl
  | succ k ih =>
    simp only [callN]
    rw [ih, h]
    omega

/-- Claim C6. For every factory built by `NewFactory(t, d, options...)` from
`With*` options, `CreateDefaultConfig()` is exactly the call `d()`: same
returned value and same effect, in every world, whatever the options.  Every
call invokes `d` again: `n` successive calls of `CreateDefaultConfig` behave
as `n` successive invocations of `d` (the k-th call returns what the k-th
invocation of `d` produces), and when each invocation of `d` bumps a counter
by one, the counter has advanced by exactly `n` after `n` calls. -/
theorem createDefaultConfig_invokes_builder_each_call {E : Env} (cfgType : ConfigType)
    (createDefaultConfig : CreateDefaultConfig E) (cs : List (WithCall E)) :
    ∃ f : factory E,
      NewFactory cfgType createDefaultConfig (cs.map WithCall.option) = Outcome.ret f ∧
      (∀ w, f.CreateDefaultConfig w = invoke createDefaultConfig w) ∧
      (∀ n w, callN f.CreateDefaultConfig n w = callN (invoke createDefaultConfig) n w) ∧
      (∀ count : E.World → Nat,
        (∀ w, count (invoke createDefaultConfig w).2 = count w + 1) →
        ∀ n w, count (callN f.CreateDefaultConfig n w).2 = count w + n) :=
  ⟨_, applyOptions_withCalls cs _, fun _ => rfl, fun _ _ => rfl,
    fun count h n w => callN_count _ count h n w⟩

/-- Witness of C6: a builder that counts its invocations in the world and
returns a different value each time, called three times through a factory
built with a trace option. -/
theorem createDefaultConfig_invokes_builder_each_call_witness :
    (∀ w : Nat, (invoke (some freshConfig) w).2 = w + 1) ∧
    ∃ f : factory natEnv,
      NewFactory "otlp" (some freshConfig) [WithTraces (some buildTrace)] = Outcome.ret f ∧
      (callN f.CreateDefaultConfig 3 0).2 = 0 + 3 ∧
      callN f.CreateDefaultConfig 3 0
        = ([Outcome.ret 100, Outcome.ret 101, Outcome.ret 102], 3) := by
  obtain ⟨f, hf, _, hk, hc⟩ :=
    createDefaultConfig_invokes_builder_each_call "otlp" (some freshConfig)
      [WithCall.traces (some buildTrace)]
  exact ⟨fun _ => rfl, f, hf, hc id (fun _ => rfl) 3 0, (hk 3 0).trans rfl⟩

/-- Claim C7. For every factory and every call of `CreateTracesReceiver`,
`CreateMetricsReceiver` or `CreateLogsReceiver` that returns a non-nil error
`e`: either `e` is `ErrDataTypeIsNotSupported`, or the builder slot of that
kind holds a function and that function, on the same arguments and world,
returned exactly this result with this error `e`.  Conversely a result with a
non-nil error returned by the builder of the kind is what the method returns:
it is never turned into a success. -/
theorem create_receiver_error_is_sentinel_or_builders {E : Env} (f : factory E) :
    (∀ ctx params cfg next w r e w1,
      f.CreateTracesReceiver ctx params cfg next w = (Outcome.ret (r, some e), w1) →
      e = E.ErrDataTypeIsNotSupported ∨
        ∃ g, f.createTraceReceiver = some g ∧
          g ctx params cfg next w = (Outcome.ret (r, some e), w1)) ∧
    (∀ ctx params cfg next w r e w1,
      f.CreateMetricsReceiver ctx params cfg next w = (Outcome.ret (r, some e), w1) →
      e = E.ErrDataTypeIsNotSupported ∨
        ∃ g, f.createMetricsReceiver = some g ∧
          g ctx params cfg next w = (Outcome.ret (r, some e), w1)) ∧
    (∀ ctx params cfg next w r e w1,
      f.CreateLogsReceiver ctx params cfg next w = (Outcome.ret (r, some e), w1) →
      e = E.ErrDataTypeIsNotSupported ∨
        ∃ g, f.createLogsReceiver = some g ∧
          g ctx params cfg next w = (Outcome.ret (r, some e), w1)) ∧
    (∀ g, f.createTraceReceiver = some g → ∀ ctx params cfg next w r e w1,
      g ctx params cfg next w = (Outcome.ret (r, some e), w1) →
      f.CreateTracesReceiver ctx params cfg next w = (Outcome.ret (r, some e), w1)) ∧
    (∀ g, f.createMetricsReceiver = some g → ∀ ctx params cfg next w r e w1,
      g ctx params cfg next w = (Outcome.ret (r, some e), w1) →
      f.CreateMetricsReceiver ctx params cfg next w = (Outcome.ret (r, some e), w1)) ∧
    (∀ g, f.createLogsReceiver = some g → ∀ ctx params cfg next w r e w1,
      g ctx params cfg next w = (Outcome.ret (r, some e), w1) →
      f.CreateLogsReceiver ctx params cfg next w = (Outcome.ret (r, some e), w1)) := by
  refine ⟨?_, ?_, ?_, ?_, ?_, ?_⟩
  · intro ctx params cfg next w r e w1 h
    cases hb : f.createTraceReceiver with
    | none =>
      simp only [factory.CreateTracesReceiver, hb, Prod.mk.injEq, Outcome.ret.injEq,
        Option.some.injEq] at h
      exact Or.inl h.1.2.symm
    | some g =>
      simp only [factory.CreateTracesReceiver, hb] at h
      exact Or.inr ⟨g, rfl, h⟩
  · intro ctx params cfg next w r e w1 h
    cases hb : f.createMetricsReceiver with
    | none =>
      simp only [factory.CreateMetricsReceiver, hb, Prod.mk.injEq, Outcome.ret.injEq,
        Option.some.injEq] at h
      exact Or.inl h.1.2.symm
    | some g =>
      simp only [factory.CreateMetricsReceiver, hb] at h
      exact Or.inr ⟨g, rfl, h⟩
  · intro ctx params cfg next w r e w1 h
    cases hb : f.createLogsReceiver with
    | none =>
      simp only [factory.CreateLogsReceiver, hb, Prod.mk.injEq, Outcome.ret.injEq,
        Option.some.injEq] at h
      exact Or.inl h.1.2.symm
    | some g =>
      simp only [factory.CreateLogsReceiver, hb] at h
      exact Or.inr ⟨g, rfl, h⟩
  · intro g hb ctx params cfg next w r e w1 h
    simp only [factory.CreateTracesReceiver, hb, h]
  · intro g hb ctx params cfg next w r e w1 h
    simp only [factory.CreateMetricsReceiver, hb, h]
  · intro g hb ctx params cfg next w r e w1 h
    simp only [factory.CreateLogsReceiver, hb, h]

/-- Witness of C7: a trace builder that fails with its own error, on a factory
that holds it. -/
theorem create_receiver_error_is_sentinel_or_builders_witness :
    fullFactory.CreateTracesReceiver 1 2 3 4 0
      = (Outcome.ret (none, some "listen: address in use"), 1) ∧
    ("listen: address in use" = natEnv.ErrDataTypeIsNotSupported ∨
      ∃ g, fullFactory.createTraceReceiver = some g ∧
        g 1 2 3 4 0 = (Outcome.ret (none, some "listen: address in use"), 1)) :=
  ⟨rfl, (create_receiver_error_is_sentinel_or_builders fullFactory).1 1 2 3 4 0 none
    "listen: address in use" 1 rfl⟩

/-- Claim C8 as stated fails. A nil `FactoryOption` is a value of the option
type; `NewFactory("otlp", d, nil)` reaches `opt(f)` with `opt == nil` and
panics, so no factory is returned. -/
theorem newFactory_nil_option_panics :
    NewFactory "otlp" (some fixedConfig) [none] = (Outcome.panicked : Outcome (factory natEnv)) ∧
    ¬ ∃ f : factory natEnv, NewFactory "otlp" (some fixedConfig) [none] = Outcome.ret f := by
  refine ⟨rfl, ?_⟩
  rintro ⟨f, h⟩
  simp [NewFactory, applyOptions] at h

/-- Claim C8, amended. For every config-type identifier (the empty one
included), every default-config builder (a nil one included) and every list
of options returned by `WithTraces`, `WithMetrics` and `WithLogs`, whatever
builders (nil ones included) they carry, `NewFactory` returns a factory value
without panicking. -/
theorem newFactory_returns_for_with_options {E : Env} (cfgType : ConfigType)
    (createDefaultConfig : CreateDefaultConfig E) (cs : List (WithCall E)) :
    (∃ f : factory E,
      NewFactory cfgType createDefaultConfig (cs.map WithCall.option) = Outcome.ret f) ∧
    (∃ f : factory E, NewFactory "" none (cs.map WithCall.option) = Outcome.ret f) :=
  ⟨⟨_, applyOptions_withCalls cs _⟩, ⟨_, applyOptions_withCalls cs _⟩⟩

/-- `Type` hands back the record it was called on. -/
theorem method_type_self {E : Env} (f : factory E) (w : E.World) :
    (Method.Type_ f w).self = f := rfl

/-- `CreateDefaultConfig` hands back the record it was called on. -/
theorem method_createDefaultConfig_self {E : Env} (f : factory E) (w : E.World) :
    (Method.CreateDefaultConfig f w).self = f := by
  unfold Method.CreateDefaultConfig
  split <;> rfl

/-- `CreateTracesReceiver` hands back the record it was called on. -/
theorem method_createTraces_self {E : Env} (f : factory E) (ctx : E.Context)
    (params : E.ReceiverCreateParams) (cfg : E.Receiver) (next : E.Traces) (w : E.World) :
    (Method.CreateTracesReceiver f ctx params cfg next w).self = f := by
  unfold Method.CreateTracesReceiver
  split <;> rfl

/-- `CreateMetricsReceiver` hands back the record it was called on. -/
theorem method_createMetrics_self {E : Env} (f : factory E) (ctx : E.Context)
    (params : E.ReceiverCreateParams) (cfg : E.Receiver) (next : E.Metrics) (w : E.World) :
    (Method.CreateMetricsReceiver f ctx params cfg next w).self = f := by
  unfold Method.CreateMetricsReceiver
  split <;> rfl

/-- `CreateLogsReceiver` hands back the record it was called on. -/
theorem method_createLogs_self {E : Env} (f : factory E) (ctx : E.Context)
    (params : E.ReceiverCreateParams) (cfg : E.Receiver) (next : E.Logs) (w : E.World) :
    (Method.CreateLogsReceiver f ctx params cfg next w).self = f := by
  unfold Method.CreateLogsReceiver
  split <;> rfl

/-- The state-passing translation of each method returns the value and the
world that the method returns. -/
theorem method_agrees {E : Env} (f : factory E) (w : E.World) :
    (Method.Type_ f w).value = f.Type_ ∧ (Method.Type_ f w).world = w ∧
    ((Method.CreateDefaultConfig f w).value, (Method.CreateDefaultConfig f w).world)
      = f.CreateDefaultConfig w ∧
    (∀ ctx params cfg next,
      ((Method.CreateTracesReceiver f ctx params cfg next w).value,
        (Method.CreateTracesReceiver f ctx params cfg next w).world)
        = f.CreateTracesReceiver ctx params cfg next w) ∧
    (∀ ctx params cfg next,
      ((Method.CreateMetricsReceiver f ctx params cfg next w).value,
        (Method.CreateMetricsReceiver f ctx params cfg next w).world)
        = f.CreateMetricsReceiver ctx params cfg next w) ∧
    (∀ ctx params cfg next,
      ((Method.CreateLogsReceiver f ctx params cfg next w).value,
        (Method.CreateLogsReceiver f ctx params cfg next w).world)
        = f.CreateLogsReceiver ctx params cfg next w) := by
  refine ⟨rfl, rfl, ?_, ?_, ?_, ?_⟩
  · cases hb : f.createDefaultConfig <;>
      simp [Method.CreateDefaultConfig, factory.CreateDefaultConfig, invoke, hb]
  · intro ctx params cfg next
    cases hb : f.createTraceReceiver <;>
      simp [Method.CreateTracesReceiver, factory.CreateTracesReceiver, hb]
  · intro ctx params cfg next
    cases hb : f.createMetricsReceiver <;>
      simp [Method.CreateMetricsReceiver, factory.CreateMetricsReceiver, hb]
  · intro ctx params cfg next
    cases hb : f.createLogsReceiver <;>
      simp [Method.CreateLogsReceiver, factory.CreateLogsReceiver, hb]

/-- A method call leaves the factory record of the session as it was. -/
theorem step_self {E : Env} (s : Session E) (c : Call E) : (step s c).2.self = s.self := by
  cases c with
  | type => exact method_type_self s.self s.world
  | createDefaultConfig => exact method_createDefaultConfig_self s.self s.world
  | createTracesReceiver ctx params cfg next =>
    exact method_createTraces_self s.self ctx params cfg next s.world
  | createMetricsReceiver ctx params cfg next =>
    exact method_createMetrics_self s.self ctx params cfg next s.world
  | createLogsReceiver ctx params cfg next =>
    exact method_createLogs_self s.self ctx params cfg next s.world

/-- A sequence of method calls leaves the factory record of the session as it
was. -/
theorem run_self {E : Env} (s : Session E) (calls : List (Call E)) :
    (run s calls).2.self = s.self := by
  induction calls generalizing s with
  | nil => rfl
  | cons c rest ih =>
    simp only [run]
    rw [ih, step_self]

/-- With builders that are functions of their arguments, what a method call
gives back does not depend on the world it is made in. -/
theorem step_reply_world_irrelevant {E : Env} (f : factory E) (h : f.BuildersAreFunctions)
    (c : Call E) (w w1 : E.World) :
    (step { self := f, world := w } c).1 = (step { self := f, world := w1 } c).1 := by
  obtain ⟨hd, ht, hm, hl⟩ := h
  cases c with
  | type => rfl
  | createDefaultConfig =>
    simp only [step, Method.CreateDefaultConfig]
    cases hb : f.createDefaultConfig with
    | none => rfl
    | some g => simp only [hd g hb w w1]
  | createTracesReceiver ctx params cfg next =>
    simp only [step, Method.CreateTracesReceiver]
    cases hb : f.createTraceReceiver with
    | none => rfl
    | some g => simp only [ht g hb ctx params cfg next w w1]
  | createMetricsReceiver ctx params cfg next =>
    simp only [step, Method.CreateMetricsReceiver]
    cases hb : f.createMetricsReceiver with
    | none => rfl
    | some g => simp only [hm g hb ctx params cfg next w w1]
  | createLogsReceiver ctx params cfg next =>
    simp only [step, Method.CreateLogsReceiver]
    cases hb : f.createLogsReceiver with
    | none => rfl
    | some g => simp only [hl g hb ctx params cfg next w w1]

/-- With builders that are functions of their arguments, every call of a
sequence gives back what it gives back when made first. -/
theorem run_replies {E : Env} (f : factory E) (h : f.BuildersAreFunctions)
    (calls : List (Call E)) (w0 w : E.World) :
    (run { self := f, world := w } calls).1
      = calls.map (fun c => (step { self := f, world := w0 } c).1) := by
  induction calls generalizing w with
  | nil => rfl
  | cons c rest ih =>
    have hs : (step { self := f, world := w } c).2
        = { self := f, world := (step { self := f, world := w } c).2.world } := by
      have := step_self { self := f, world := w } c
      cases hstep : (step { self := f, world := w } c).2 with
      | mk self world =>
        rw [hstep] at this
        simp only at this
        rw [this]
    simp only [run, List.map_cons]
    rw [hs, ih, step_reply_world_irrelevant f h c w w0]

/-- Claim C9. Each of `Type`, `CreateDefaultConfig`, `CreateTracesReceiver`,
`CreateMetricsReceiver`, `CreateLogsReceiver`, run on the record behind its
receiver pointer, hands the record back with its five fields as they were,
while returning the value and world stated for the method.  So after one
call, and after every finite sequence of calls in any order, the record is
the one the sequence started on; and when the builders are functions of their
arguments, every call of such a sequence returns what the same call returns
when it is made first on the freshly constructed factory. -/
theorem factory_unchanged_by_method_calls {E : Env} (f : factory E) (calls : List (Call E))
    (w : E.World) :
    ((Method.Type_ f w).self = f ∧
      (Method.CreateDefaultConfig f w).self = f ∧
      (∀ ctx params cfg next, (Method.CreateTracesReceiver f ctx params cfg next w).self = f) ∧
      (∀ ctx params cfg next, (Method.CreateMetricsReceiver f ctx params cfg next w).self = f) ∧
      (∀ ctx params cfg next, (Method.CreateLogsReceiver f ctx params cfg next w).self = f)) ∧
    ((Method.Type_ f w).value = f.Type_ ∧ (Method.Type_ f w).world = w ∧
      ((Method.CreateDefaultConfig f w).value, (Method.CreateDefaultConfig f w).world)
        = f.CreateDefaultConfig w ∧
      (∀ ctx params cfg next,
        ((Method.CreateTracesReceiver f ctx params cfg next w).value,
          (Method.CreateTracesReceiver f ctx params cfg next w).world)
          = f.CreateTracesReceiver ctx params cfg next w) ∧
      (∀ ctx params cfg next,
        ((Method.CreateMetricsReceiver f ctx params cfg next w).value,
          (Method.CreateMetricsReceiver f ctx params cfg next w).world)
          = f.CreateMetricsReceiver ctx params cfg next w) ∧
      (∀ ctx params cfg next,
        ((Method.CreateLogsReceiver f ctx params cfg next w).value,
          (Method.CreateLogsReceiver f ctx params cfg next w).world)
          = f.CreateLogsReceiver ctx params cfg next w)) ∧
    (∀ (s : Session E) (c : Call E), (step s c).2.self = s.self) ∧
    (run { self := f, world := w } calls).2.self = f ∧
    (f.BuildersAreFunctions →
      (run { self := f, world := w } calls).1
        = calls.map (fun c => (step { self := f, world := w } c).1)) :=
  ⟨⟨method_type_self f w, method_createDefaultConfig_self f w,
      fun ctx params cfg next => method_createTraces_self f ctx params cfg next w,
      fun ctx params cfg next => method_createMetrics_self f ctx params cfg next w,
      fun ctx params cfg next => method_createLogs_self f ctx params cfg next w⟩,
    method_agrees f w, step_self, run_self _ calls, fun h => run_replies f h calls w w⟩

/-- Witness of C9: a factory whose builders return the same result in every
world, and a sequence that repeats a call after other calls. -/
theorem factory_unchanged_by_method_calls_witness :
    fullFactory.BuildersAreFunctions ∧
    (run { self := fullFactory, world := 0 }
        [Call.createLogsReceiver 1 2 3 4, Call.type, Call.createDefaultConfig,
          Call.createTracesReceiver 1 2 3 4, Call.createLogsReceiver 1 2 3 4]).1
      = [Reply.logs (Outcome.ret (some 12, none)), Reply.type "otlp",
          Reply.config (Outcome.ret 7),
          Reply.traces (Outcome.ret (none, some "listen: address in use")),
          Reply.logs (Outcome.ret (some 12, none))] := by
  have hp : fullFactory.BuildersAreFunctions := by
    refine ⟨?_, ?_, ?_, ?_⟩
    · intro g hg w w1
      simp only [fullFactory, Option.some.injEq] at hg
      subst hg
      rfl
    · intro g hg ctx params cfg next w w1
      simp only [fullFactory, Option.some.injEq] at hg
      subst hg
      rfl
    · intro g hg ctx params cfg next w w1
      simp only [fullFactory, Option.some.injEq] at hg
      subst hg
      rfl
    · intro g hg ctx params cfg next w w1
      simp only [fullFactory, Option.some.injEq] at hg
      subst hg
      rfl
  exact ⟨hp, ((factory_unchanged_by_method_calls fullFactory _ 0).2.2.2.2 hp).trans rfl⟩

/-- Claim C10. For every factory returned by `NewFactory` on a default-config
builder function and `With*` options, a call of `CreateDefaultConfig`
completes and yields a configuration value whenever the builder passed to
construction completes: in a world where the builder returns the value `v`,
`CreateDefaultConfig` returns `v`, leaving the world the builder left. -/
theorem createDefaultConfig_completes_when_builder_does {E : Env} (cfgType : ConfigType)
    (g : DefaultConfigFn E) (cs : List (WithCall E)) (w w1 : E.World) (v : E.Receiver)
    (h : g w = (Outcome.ret v, w1)) :
    ∃ f : factory E,
      NewFactory cfgType (some g) (cs.map WithCall.option) = Outcome.ret f ∧
      f.CreateDefaultConfig w = (Outcome.ret v, w1) :=
  ⟨_, applyOptions_withCalls cs _, h⟩

/-- Witness of C10: a builder that completes, behind a factory built with two
options. -/
theorem createDefaultConfig_completes_when_builder_does_witness :
    freshConfig 5 = (Outcome.ret 105, 6) ∧
    ∃ f : factory natEnv,
      NewFactory "otlp" (some freshConfig) [WithLogs (some buildLogs), WithTraces none]
        = Outcome.ret f ∧
      f.CreateDefaultConfig 5 = (Outcome.ret 105, 6) :=
  ⟨rfl, createDefaultConfig_completes_when_builder_does "otlp" freshConfig
    [WithCall.logs (some buildLogs), WithCall.traces none] 5 6 105 rfl⟩

/-- On the instrumented factory, `CreateTracesReceiver` with a nil trace slot
returns the sentinel and leaves world and journal as they were. -/
theorem traced_createTraces_unset {E : Env} (f : factory E) (h : f.createTraceReceiver = none)
    (ctx : E.Context) (params : E.ReceiverCreateParams) (cfg : E.Receiver) (next : E.Traces)
    (w : E.World) (log : List Builder) :
    f.traced.CreateTracesReceiver ctx params cfg next (w, log)
      = (Outcome.ret (none, some E.ErrDataTypeIsNotSupported), (w, log)) := by
  simp [factory.CreateTracesReceiver, factory.traced, h]

/-- On the instrumented factory, `CreateTracesReceiver` with the trace slot
holding `g` runs `g` and enters the trace builder once in the journal. -/
theorem traced_createTraces_set {E : Env} (f : factory E) (g : TraceFn E)
    (h : f.createTraceReceiver = some g)
    (ctx : E.Context) (params : E.ReceiverCreateParams) (cfg : E.Receiver) (next : E.Traces)
    (w : E.World) (log : List Builder) :
    f.traced.CreateTracesReceiver ctx params cfg next (w, log)
      = ((g ctx params cfg next w).1, ((g ctx params cfg next w).2, log ++ [Builder.traces])) := by
  simp [factory.CreateTracesReceiver, factory.traced, h]

/-- On the instrumented factory, `CreateMetricsReceiver` with a nil metrics
slot returns the sentinel and leaves world and journal as they were. -/
theorem traced_createMetrics_unset {E : Env} (f : factory E)
    (h : f.createMetricsReceiver = none)
    (ctx : E.Context) (params : E.ReceiverCreateParams) (cfg : E.Receiver) (next : E.Metrics)
    (w : E.World) (log : List Builder) :
    f.traced.CreateMetricsReceiver ctx params cfg next (w, log)
      = (Outcome.ret (none, some E.ErrDataTypeIsNotSupported), (w, log)) := by
  simp [factory.CreateMetricsReceiver, factory.traced, h]

/-- On the instrumented factory, `CreateMetricsReceiver` with the metrics slot
holding `g` runs `g` and enters the metrics builder once in the journal. -/
theorem traced_createMetrics_set {E : Env} (f : factory E) (g : MetricsFn E)
    (h : f.createMetricsReceiver = some g)
    (ctx : E.Context) (params : E.ReceiverCreateParams) (cfg : E.Receiver) (next : E.Metrics)
    (w : E.World) (log : List Builder) :
    f.traced.CreateMetricsReceiver ctx params cfg next (w, log)
      = ((g ctx params cfg next w).1,
          ((g ctx params cfg next w).2, log ++ [Builder.metrics])) := by
  simp [factory.CreateMetricsReceiver, factory.traced, h]

/-- On the instrumented factory, `CreateLogsReceiver` with a nil logs slot
returns the sentinel and leaves world and journal as they were. -/
theorem traced_createLogs_unset {E : Env} (f : factory E) (h : f.createLogsReceiver = none)
    (ctx : E.Context) (params : E.ReceiverCreateParams) (cfg : E.Receiver) (next : E.Logs)
    (w : E.World) (log : List Builder) :
    f.traced.CreateLogsReceiver ctx params cfg next (w, log)
      = (Outcome.ret (none, some E.ErrDataTypeIsNotSupported), (w, log)) := by
  simp [factory.CreateLogsReceiver, factory.traced, h]

/-- On the instrumented factory, `CreateLogsReceiver` with the logs slot
holding `g` runs `g` and enters the logs builder once in the journal. -/
theorem traced_createLogs_set {E : Env} (f : factory E) (g : LogsFn E)
    (h : f.createLogsReceiver = some g)
    (ctx : E.Context) (params : E.ReceiverCreateParams) (cfg : E.Receiver) (next : E.Logs)
    (w : E.World) (log : List Builder) :
    f.traced.CreateLogsReceiver ctx params cfg next (w, log)
      = ((g ctx params cfg next w).1, ((g ctx params cfg next w).2, log ++ [Builder.logs])) := by
  simp [factory.CreateLogsReceiver, factory.traced, h]

/-- Claim C11. For each signal kind and every factory, with every function the
factory holds instrumented to enter itself in a journal when invoked: when
the builder of the requested kind is unset, the `Create*Receiver` method
returns a nil receiver and `ErrDataTypeIsNotSupported` with world and journal
untouched, so no caller-supplied function (no builder of another kind, no
default-config builder) was invoked; when it is set to `g`, the method
returns what `g` returns and the journal has grown by exactly one entry, the
builder of the requested kind. -/
theorem create_receiver_invokes_only_its_own_builder {E : Env} (f : factory E) :
    (∀ ctx params cfg next w log,
      (f.createTraceReceiver = none →
        f.traced.CreateTracesReceiver ctx params cfg next (w, log)
          = (Outcome.ret (none, some E.ErrDataTypeIsNotSupported), (w, log))) ∧
      (∀ g, f.createTraceReceiver = some g →
        f.traced.CreateTracesReceiver ctx params cfg next (w, log)
          = ((g ctx params cfg next w).1,
              ((g ctx params cfg next w).2, log ++ [Builder.traces])))) ∧
    (∀ ctx params cfg next w log,
      (f.createMetricsReceiver = none →
        f.traced.CreateMetricsReceiver ctx params cfg next (w, log)
          = (Outcome.ret (none, some E.ErrDataTypeIsNotSupported), (w, log))) ∧
      (∀ g, f.createMetricsReceiver = some g →
        f.traced.CreateMetricsReceiver ctx params cfg next (w, log)
          = ((g ctx params cfg next w).1,
              ((g ctx params cfg next w).2, log ++ [Builder.metrics])))) ∧
    (∀ ctx params cfg next w log,
      (f.createLogsReceiver = none →
        f.traced.CreateLogsReceiver ctx params cfg next (w, log)
          = (Outcome.ret (none, some E.ErrDataTypeIsNotSupported), (w, log))) ∧
      (∀ g, f.createLogsReceiver = some g →
        f.traced.CreateLogsReceiver ctx params cfg next (w, log)
          = ((g ctx params cfg next w).1,
              ((g ctx params cfg next w).2, log ++ [Builder.logs])))) :=
  ⟨fun ctx params cfg next w log =>
      ⟨fun h => traced_createTraces_unset f h ctx params cfg next w log,
       fun g h => traced_createTraces_set f g h ctx params cfg next w log⟩,
   fun ctx params cfg next w log =>
      ⟨fun h => traced_createMetrics_unset f h ctx params cfg next w log,
       fun g h => traced_createMetrics_set f g h ctx params cfg next w log⟩,
   fun ctx params cfg next w log =>
      ⟨fun h => traced_createLogs_unset f h ctx params cfg next w log,
       fun g h => traced_createLogs_set f g h ctx params cfg next w log⟩⟩

/-- Witness of C11 on a factory with a default-config builder and a logs
builder only: the trace method invokes nothing, the logs method invokes the
logs builder once. -/
theorem create_receiver_invokes_only_its_own_builder_witness :
    (logsOnlyFactory.createTraceReceiver = none ∧
      logsOnlyFactory.traced.CreateTracesReceiver 1 2 3 4 (0, [])
        = (Outcome.ret (none, some "telemetry type is not supported"), (0, []))) ∧
    (logsOnlyFactory.createLogsReceiver = some buildLogs ∧
      logsOnlyFactory.traced.CreateLogsReceiver 1 2 3 4 (0, [])
        = (Outcome.ret (some 12, none), (1, [Builder.logs]))) :=
  ⟨⟨rfl, ((create_receiver_invokes_only_its_own_builder logsOnlyFactory).1 1 2 3 4 0 []).1 rfl⟩,
   ⟨rfl, ((create_receiver_invokes_only_its_own_builder logsOnlyFactory).2.2 1 2 3 4 0 []).2
      buildLogs rfl⟩⟩

/-- Claim C12. When the last option of a kind in a list of `With*` options
carries a nil builder, whatever the earlier options of that kind installed,
`NewFactory` returns a factory on which the `Create*Receiver` method of that
kind returns a nil receiver and `ErrDataTypeIsNotSupported` and invokes no
caller-supplied function (world and journal of invocations untouched).  On
every factory, a creation method invokes a builder if and only if the stored
builder of its kind is non-nil. -/
theorem nil_builder_option_removes_capability {E : Env} (cfgType : ConfigType)
    (createDefaultConfig : CreateDefaultConfig E) (cs : List (WithCall E)) :
    (lastTraces cs = some none → ∃ f : factory E,
      NewFactory cfgType createDefaultConfig (cs.map WithCall.option) = Outcome.ret f ∧
      ∀ ctx params cfg next w log,
        f.CreateTracesReceiver ctx params cfg next w
          = (Outcome.ret (none, some E.ErrDataTypeIsNotSupported), w) ∧
        f.traced.CreateTracesReceiver ctx params cfg next (w, log)
          = (Outcome.ret (none, some E.ErrDataTypeIsNotSupported), (w, log))) ∧
    (lastMetrics cs = some none → ∃ f : factory E,
      NewFactory cfgType createDefaultConfig (cs.map WithCall.option) = Outcome.ret f ∧
      ∀ ctx params cfg next w log,
        f.CreateMetricsReceiver ctx params cfg next w
          = (Outcome.ret (none, some E.ErrDataTypeIsNotSupported), w) ∧
        f.traced.CreateMetricsReceiver ctx params cfg next (w, log)
          = (Outcome.ret (none, some E.ErrDataTypeIsNotSupported), (w, log))) ∧
    (lastLogs cs = some none → ∃ f : factory E,
      NewFactory cfgType createDefaultConfig (cs.map WithCall.option) = Outcome.ret f ∧
      ∀ ctx params cfg next w log,
        f.CreateLogsReceiver ctx params cfg next w
          = (Outcome.ret (none, some E.ErrDataTypeIsNotSupported), w) ∧
        f.traced.CreateLogsReceiver ctx params cfg next (w, log)
          = (Outcome.ret (none, some E.ErrDataTypeIsNotSupported), (w, log))) ∧
    (∀ (f : factory E) ctx params cfg next w log,
      (f.traced.CreateTracesReceiver ctx params cfg next (w, log)).2.2 ≠ log
        ↔ f.createTraceReceiver ≠ none) ∧
    (∀ (f : factory E) ctx params cfg next w log,
      (f.traced.CreateMetricsReceiver ctx params cfg next (w, log)).2.2 ≠ log
        ↔ f.createMetricsReceiver ≠ none) ∧
    (∀ (f : factory E) ctx params cfg next w log,
      (f.traced.CreateLogsReceiver ctx params cfg next (w, log)).2.2 ≠ log
        ↔ f.createLogsReceiver ≠ none) := by
  refine ⟨?_, ?_, ?_, ?_, ?_, ?_⟩
  · intro h
    refine ⟨_, applyOptions_withCalls cs _, ?_⟩
    intro ctx params cfg next w log
    refine ⟨?_, traced_createTraces_unset _ ?_ ctx params cfg next w log⟩
    · simp [factory.CreateTracesReceiver, h]
    · simp [h]
  · intro h
    refine ⟨_, applyOptions_withCalls cs _, ?_⟩
    intro ctx params cfg next w log
    refine ⟨?_, traced_createMetrics_unset _ ?_ ctx params cfg next w log⟩
    · simp [factory.CreateMetricsReceiver, h]
    · simp [h]
  · intro h
    refine ⟨_, applyOptions_withCalls cs _, ?_⟩
    intro ctx params cfg next w log
    refine ⟨?_, traced_createLogs_unset _ ?_ ctx params cfg next w log⟩
    · simp [factory.CreateLogsReceiver, h]
    · simp [h]
  · intro f ctx params cfg next w log
    cases hb : f.createTraceReceiver with
    | none => simp [traced_createTraces_unset f hb]
    | some g => simp [traced_createTraces_set f g hb]
  · intro f ctx params cfg next w log
    cases hb : f.createMetricsReceiver with
    | none => simp [traced_createMetrics_unset f hb]
    | some g => simp [traced_createMetrics_set f g hb]
  · intro f ctx params cfg next w log
    cases hb : f.createLogsReceiver with
    | none => simp [traced_createLogs_unset f hb]
    | some g => simp [traced_createLogs_set f g hb]

/-- Witness of C12: a trace builder installed by the first option and removed
by a later `WithTraces(nil)`. -/
theorem nil_builder_option_removes_capability_witness :
    lastTraces [WithCall.traces (some buildTrace), WithCall.logs (some buildLogs),
        WithCall.traces none] = some none ∧
    ∃ f : factory natEnv,
      NewFactory "otlp" (some fixedConfig)
          [WithTraces (some buildTrace), WithLogs (some buildLogs), WithTraces none]
        = Outcome.ret f ∧
      ∀ ctx params cfg next w log,
        f.CreateTracesReceiver ctx params cfg next w
          = (Outcome.ret (none, some "telemetry type is not supported"), w) ∧
        f.traced.CreateTracesReceiver ctx params cfg next (w, log)
          = (Outcome.ret (none, some "telemetry type is not supported"), (w, log)) :=
  ⟨rfl, (nil_builder_option_removes_capability "otlp" (some fixedConfig)
    [WithCall.traces (some buildTrace), WithCall.logs (some buildLogs),
      WithCall.traces none]).1 rfl⟩

/-- The last pick of a list is the last element of the list of its picks. -/
theorem lastPick_filterMap {α β : Type} (pick : α → Option β) (cs : List α) :
    lastPick pick cs = lastPick some (cs.filterMap pick) := by
  induction cs with
  | nil => rfl
  | cons c rest ih =>
    cases hc : pick c with
    | none => simp only [lastPick, List.filterMap_cons, hc, ← ih]; cases lastPick pick rest <;> rfl
    | some b => simp only [lastPick, List.filterMap_cons, hc, ← ih]

/-- Claim C13. On every factory state and for all builders, nil included: two
`With*` options of different kinds give the same factory in either order, and
an option applied twice gives the same factory as applied once.  Hence two
lists of `With*` options that list the options of each kind in the same order
(a rearrangement that keeps the relative order of same-kind options) make
`NewFactory` return the same factory. -/
theorem options_commute_across_kinds_and_absorb {E : Env} :
    (∀ (a : CreateTraceReceiver E) (b : CreateMetricsReceiver E) (o : factory E),
      applyOptions [WithTraces a, WithMetrics b] o
        = applyOptions [WithMetrics b, WithTraces a] o) ∧
    (∀ (a : CreateTraceReceiver E) (b : CreateLogsReceiver E) (o : factory E),
      applyOptions [WithTraces a, WithLogs b] o = applyOptions [WithLogs b, WithTraces a] o) ∧
    (∀ (a : CreateMetricsReceiver E) (b : CreateLogsReceiver E) (o : factory E),
      applyOptions [WithMetrics a, WithLogs b] o
        = applyOptions [WithLogs b, WithMetrics a] o) ∧
    (∀ (a : CreateTraceReceiver E) (o : factory E),
      applyOptions [WithTraces a, WithTraces a] o = applyOptions [WithTraces a] o) ∧
    (∀ (a : CreateMetricsReceiver E) (o : factory E),
      applyOptions [WithMetrics a, WithMetrics a] o = applyOptions [WithMetrics a] o) ∧
    (∀ (a : CreateLogsReceiver E) (o : factory E),
      applyOptions [WithLogs a, WithLogs a] o = applyOptions [WithLogs a] o) ∧
    (∀ (cfgType : ConfigType) (createDefaultConfig : CreateDefaultConfig E)
        (cs cs1 : List (WithCall E)), SameKindOrder cs cs1 →
      NewFactory cfgType createDefaultConfig (cs.map WithCall.option)
        = NewFactory cfgType createDefaultConfig (cs1.map WithCall.option)) := by
  refine ⟨fun _ _ _ => rfl, fun _ _ _ => rfl, fun _ _ _ => rfl, fun _ _ => rfl,
    fun _ _ => rfl, fun _ _ => rfl, ?_⟩
  intro cfgType createDefaultConfig cs cs1 h
  obtain ⟨ht, hm, hl⟩ := h
  have e1 : lastTraces cs = lastTraces cs1 := by
    simp only [lastTraces, lastPick_filterMap WithCall.traces?, ht]
  have e2 : lastMetrics cs = lastMetrics cs1 := by
    simp only [lastMetrics, lastPick_filterMap WithCall.metrics?, hm]
  have e3 : lastLogs cs = lastLogs cs1 := by
    simp only [lastLogs, lastPick_filterMap WithCall.logs?, hl]
  simp only [NewFactory, applyOptions_withCalls, e1, e2, e3]

/-- Witness of C13: a metrics option moved in front of two trace options that
keep their order. -/
theorem options_commute_across_kinds_and_absorb_witness :
    SameKindOrder
      [WithCall.traces (some buildTrace), WithCall.traces none, WithCall.metrics (some failMetrics)]
      [WithCall.metrics (some failMetrics), WithCall.traces (some buildTrace),
        WithCall.traces none] ∧
    NewFactory "otlp" (some fixedConfig)
        [WithTraces (some buildTrace), WithTraces none, WithMetrics (some failMetrics)]
      = NewFactory "otlp" (some fixedConfig)
        [WithMetrics (some failMetrics), WithTraces (some buildTrace), WithTraces none] :=
  ⟨⟨rfl, rfl, rfl⟩,
   options_commute_across_kinds_and_absorb.2.2.2.2.2.2 "otlp" (some fixedConfig)
    [WithCall.traces (some buildTrace), WithCall.traces none, WithCall.metrics (some failMetrics)]
    [WithCall.metrics (some failMetrics), WithCall.traces (some buildTrace),
      WithCall.traces none] ⟨rfl, rfl, rfl⟩⟩

/-- Claim C14. Each creation method depends only on the builder of its own
kind: two factories that hold the same trace builder, whatever their config
types, default-config builders, metrics builders and logs builders,
return the same result from `CreateTracesReceiver` on the same arguments and
world; likewise `CreateMetricsReceiver` for the metrics builder and
`CreateLogsReceiver` for the logs builder. -/
theorem create_receiver_depends_only_on_own_builder {E : Env} (f1 f2 : factory E) :
    (f1.createTraceReceiver = f2.createTraceReceiver →
      ∀ ctx params cfg next w,
        f1.CreateTracesReceiver ctx params cfg next w
          = f2.CreateTracesReceiver ctx params cfg next w) ∧
    (f1.createMetricsReceiver = f2.createMetricsReceiver →
      ∀ ctx params cfg next w,
        f1.CreateMetricsReceiver ctx params cfg next w
          = f2.CreateMetricsReceiver ctx params cfg next w) ∧
    (f1.createLogsReceiver = f2.createLogsReceiver →
      ∀ ctx params cfg next w,
        f1.CreateLogsReceiver ctx params cfg next w
          = f2.CreateLogsReceiver ctx params cfg next w) := by
  refine ⟨?_, ?_, ?_⟩
  · intro h ctx params cfg next w
    simp only [factory.CreateTracesReceiver, h]
  · intro h ctx params cfg next w
    simp only [factory.CreateMetricsReceiver, h]
  · intro h ctx params cfg next w
    simp only [factory.CreateLogsReceiver, h]

/-- Witness of C14: two factories with the same trace builder and different
other fields. -/
theorem create_receiver_depends_only_on_own_builder_witness :
    fullFactory.createTraceReceiver = tracesOnlyFactory.createTraceReceiver ∧
    fullFactory.cfgType ≠ tracesOnlyFactory.cfgType ∧
    ∀ ctx params cfg next w,
      fullFactory.CreateTracesReceiver ctx params cfg next w
        = tracesOnlyFactory.CreateTracesReceiver ctx params cfg next w :=
  ⟨rfl, by decide,
   (create_receiver_depends_only_on_own_builder fullFactory tracesOnlyFactory).1 rfl⟩

end receiverhelper
